import Mathlib

/-!
Shallow embedding of `src/modules/agent-payments/rust-client/src/main.rs`:
a file-driven command executor that dispatches a JSON command envelope to
one of ten operations against a remote payment client and writes a JSON
result envelope.

The remote payment client (`rust_sdk_4mica::Client`) is an external
collaborator; it is modelled as a record of response functions, one per
remote call.  File I/O and the async runtime are outside the embedding:
we model `main` from the point where the command envelope has been decoded.
-/

/-- JSON values, mirroring `serde_json::Value` (numbers as integers; the
program never manipulates fractional numbers). -/
inductive Json where
  | null : Json
  | bool : Bool → Json
  | num : Int → Json
  | str : String → Json
  | arr : List Json → Json
  | obj : List (String × Json) → Json
deriving Repr

/-- First value bound to `key` in an association list of object fields. -/
def lookupField (fields : List (String × Json)) (key : String) : Option Json :=
  match fields with
  | [] => none
  | (k, v) :: rest => if k = key then some v else lookupField rest key

/-- `value[key]` of `serde_json`: on an object, the value at `key` or `Null`
when absent; `Null` on every non-object value. -/
def Json.index (j : Json) (key : String) : Json :=
  match j with
  | Json.obj fields => (lookupField fields key).getD Json.null
  | _ => Json.null

/-- `Value::as_str`: the string when the value is a JSON string, else none. -/
def Json.as_str (j : Json) : Option String :=
  match j with
  | Json.str s => some s
  | _ => none

/-- `Value::as_u64`: the number when the value is an integer in `u64` range,
else none. -/
def Json.as_u64 (j : Json) : Option Nat :=
  match j with
  | Json.num n => if 0 ≤ n ∧ n < 2 ^ 64 then some n.toNat else none
  | _ => none

/-- 256-bit unsigned integers, represented as naturals below `2 ^ 256`. -/
abbrev U256 := Nat

/-- Decimal parse of a string: `some n` when the string is non-empty and all
digits, else `none`. -/
def parseDecimal? (s : String) : Option Nat :=
  if s.isEmpty then none
  else
    s.data.foldl
      (fun acc c =>
        match acc with
        | none => none
        | some n => if c.isDigit then some (n * 10 + (c.toNat - 48)) else none)
      (some 0)

/-- Modelled from the spec: `U256::from_str` of the external SDK (the SDK's
source is not in this repository).  Large unsigned integers are "parsed from
their string representation; malformed strings fail the whole command with a
parse error": a non-empty all-digit decimal string in range parses, anything
else is an error. -/
def U256.fromStr (s : String) : Except String U256 :=
  match parseDecimal? s with
  | some n => if n < 2 ^ 256 then Except.ok n else Except.error "number too large to fit in target type"
  | none => Except.error "invalid digit found in string"

/-- The repeated source pattern `U256::from_str(v[field].as_str().unwrap_or("0"))`:
read `field` of `v`, substitute the literal `"0"` when it is not a string,
then parse. -/
def parseU256Field (v : Json) (field : String) : Except String U256 :=
  U256.fromStr ((v.index field).as_str.getD "0")

/-- `rust_sdk_4mica::SigningScheme`. -/
inductive SigningScheme where
  | Eip712 : SigningScheme
  | Eip191 : SigningScheme
deriving Repr, DecidableEq

/-- Rust `format!("{:?}", scheme)` on a `SigningScheme`. -/
def SigningScheme.debugFormat : SigningScheme → String
  | SigningScheme.Eip712 => "Eip712"
  | SigningScheme.Eip191 => "Eip191"

/-- `rust_sdk_4mica::PaymentGuaranteeClaims`. -/
structure PaymentGuaranteeClaims where
  user_address : String
  recipient_address : String
  tab_id : U256
  req_id : U256
  amount : U256
  timestamp : Nat
deriving Repr, DecidableEq

/-- Transaction receipt returned by the client's on-chain calls; the hash is
kept as its serialized string form. -/
structure TransactionReceipt where
  transaction_hash : String
  block_number : Nat
  gas_used : Nat
deriving Repr, DecidableEq

/-- User record returned by `get_user`. -/
structure UserInfo where
  collateral : U256
  withdrawal_request_amount : U256
  withdrawal_request_timestamp : Nat
deriving Repr, DecidableEq

/-- Tab payment status returned by `get_tab_payment_status`. -/
structure TabStatus where
  paid : U256
  remunerated : U256
deriving Repr, DecidableEq

/-- Signature returned by the client's `sign_payment`. -/
structure SignatureResult where
  signature : String
  scheme : SigningScheme
deriving Repr, DecidableEq

/-- The "user" operations of the remote client, modelled as response
functions (each remote call returns a typed success value or an error). -/
structure UserOps where
  deposit : U256 → Except String TransactionReceipt
  get_user : Except String UserInfo
  sign_payment : PaymentGuaranteeClaims → SigningScheme → Except String SignatureResult
  pay_tab : U256 → U256 → U256 → String → Except String TransactionReceipt

/-- The "recipient" operations of the remote client.  The BLS certificate
returned by `issue_payment_guarantee` is only ever debug-formatted by the
program, so it is modelled by its debug string. -/
structure RecipientOps where
  create_tab : String → String → Option Nat → Except String U256
  issue_payment_guarantee : PaymentGuaranteeClaims → String → SigningScheme → Except String String
  get_tab_payment_status : U256 → Except String TabStatus

/-- `rust_sdk_4mica::Client`. -/
structure Client where
  user : UserOps
  recipient : RecipientOps

/-- Client configuration built by the bootstrap (`ConfigBuilder`). -/
structure ClientConfig where
  rpc_url : String
  wallet_private_key : String
  ethereum_http_rpc_url : String
  contract_address : String
deriving Repr, DecidableEq

/-- Config construction of `main`: each key read from the input `config`
JSON with a hard-coded fallback when it is not a present string. -/
def buildConfig (config : Json) : ClientConfig :=
  { rpc_url := ((config.index "rpc_url").as_str.getD "https://api.4mica.xyz")
    wallet_private_key := ((config.index "wallet_private_key").as_str.getD
      "0xac0974bec39a17e36ba4a6b4d238ff944bacb478cbed5efcae784d7bf4f2ff80")
    ethereum_http_rpc_url := ((config.index "ethereum_http_rpc_url").as_str.getD
      "https://ethereum-holesky.publicnode.com")
    contract_address := ((config.index "contract_address").as_str.getD
      "0x698B98d6574dE06dD39A49Cc4e37f3B06d454Eb9") }

/-- Claim extraction inlined in `sign_payment` (main.rs lines 157-165). -/
def signPaymentClaims (args : Json) : Except String PaymentGuaranteeClaims := do
  let claims_json := args.index "claims"
  let tab_id ← U256.fromStr ((claims_json.index "tab_id").as_str.getD "0")
  let req_id ← U256.fromStr ((claims_json.index "req_id").as_str.getD "0")
  let amount ← U256.fromStr ((claims_json.index "amount").as_str.getD "0")
  Except.ok
    { user_address := (claims_json.index "user_address").as_str.getD ""
      recipient_address := (claims_json.index "recipient_address").as_str.getD ""
      tab_id := tab_id
      req_id := req_id
      amount := amount
      timestamp := (claims_json.index "timestamp").as_u64.getD 0 }

/-- Claim extraction inlined in `issue_payment_guarantee` (main.rs lines 184-192). -/
def issuePaymentGuaranteeClaims (args : Json) : Except String PaymentGuaranteeClaims := do
  let claims_json := args.index "claims"
  let tab_id ← U256.fromStr ((claims_json.index "tab_id").as_str.getD "0")
  let req_id ← U256.fromStr ((claims_json.index "req_id").as_str.getD "0")
  let amount ← U256.fromStr ((claims_json.index "amount").as_str.getD "0")
  Except.ok
    { user_address := (claims_json.index "user_address").as_str.getD ""
      recipient_address := (claims_json.index "recipient_address").as_str.getD ""
      tab_id := tab_id
      req_id := req_id
      amount := amount
      timestamp := (claims_json.index "timestamp").as_u64.getD 0 }

/-- Claim extraction inlined in `verify_bls_signature` (main.rs lines 268-275). -/
def verifyBlsClaims (args : Json) : Except String PaymentGuaranteeClaims := do
  let claims_json := args.index "claims"
  let tab_id ← U256.fromStr ((claims_json.index "tab_id").as_str.getD "0")
  let req_id ← U256.fromStr ((claims_json.index "req_id").as_str.getD "0")
  let amount ← U256.fromStr ((claims_json.index "amount").as_str.getD "0")
  Except.ok
    { user_address := (claims_json.index "user_address").as_str.getD ""
      recipient_address := (claims_json.index "recipient_address").as_str.getD ""
      tab_id := tab_id
      req_id := req_id
      amount := amount
      timestamp := (claims_json.index "timestamp").as_u64.getD 0 }

/-- Signing-scheme resolution shared verbatim by `sign_payment` and
`issue_payment_guarantee`: exact match on "Eip712"/"Eip191", everything else
(including a missing or non-string field) is Eip712. -/
def resolveScheme (args : Json) : SigningScheme :=
  let scheme_str := (args.index "scheme").as_str.getD "Eip712"
  match scheme_str with
  | "Eip712" => SigningScheme.Eip712
  | "Eip191" => SigningScheme.Eip191
  | _ => SigningScheme.Eip712

/-- Handler `test_connection`: a stub success payload. -/
def test_connection : Except String Json :=
  Except.ok (Json.obj [("status", Json.str "connected")])

/-- Handler `deposit`: parse `args.amount` (absent falls back to "0"),
forward to the client, wrap the receipt. -/
def deposit (client : Client) (args : Json) : Except String Json := do
  let amount ← parseU256Field args "amount"
  match client.user.deposit amount with
  | Except.ok receipt =>
      Except.ok (Json.obj
        [("transaction_hash", Json.str receipt.transaction_hash),
         ("block_number", Json.num receipt.block_number),
         ("gas_used", Json.num receipt.gas_used)])
  | Except.error e => Except.error ("Deposit failed: " ++ e)

/-- Handler `get_user`. -/
def get_user (client : Client) : Except String Json :=
  match client.user.get_user with
  | Except.ok user_info =>
      Except.ok (Json.obj
        [("collateral", Json.str (toString user_info.collateral)),
         ("withdrawal_request_amount", Json.str (toString user_info.withdrawal_request_amount)),
         ("withdrawal_request_timestamp", Json.num user_info.withdrawal_request_timestamp)])
  | Except.error e => Except.error ("Get user failed: " ++ e)

/-- Handler `create_tab`. -/
def create_tab (client : Client) (args : Json) : Except String Json :=
  let user_address := (args.index "user_address").as_str.getD ""
  let recipient_address := (args.index "recipient_address").as_str.getD ""
  let ttl := (args.index "ttl").as_u64
  match client.recipient.create_tab user_address recipient_address ttl with
  | Except.ok tab_id => Except.ok (Json.obj [("tab_id", Json.str (toString tab_id))])
  | Except.error e => Except.error ("Create tab failed: " ++ e)

/-- Handler `sign_payment`. -/
def sign_payment (client : Client) (args : Json) : Except String Json := do
  let claims ← signPaymentClaims args
  let scheme := resolveScheme args
  match client.user.sign_payment claims scheme with
  | Except.ok signature =>
      Except.ok (Json.obj
        [("signature", Json.str signature.signature),
         ("scheme", Json.str signature.scheme.debugFormat)])
  | Except.error e => Except.error ("Sign payment failed: " ++ e)

/-- Handler `issue_payment_guarantee`. -/
def issue_payment_guarantee (client : Client) (args : Json) : Except String Json := do
  let claims ← issuePaymentGuaranteeClaims args
  let signature := (args.index "signature").as_str.getD ""
  let scheme := resolveScheme args
  match client.recipient.issue_payment_guarantee claims signature scheme with
  | Except.ok bls_cert =>
      Except.ok (Json.obj
        [("certificate", Json.str bls_cert),
         ("signature", Json.str "bls_signature"),
         ("public_key", Json.str "bls_public_key")])
  | Except.error e => Except.error ("Issue payment guarantee failed: " ++ e)

/-- Handler `pay_tab`. -/
def pay_tab (client : Client) (args : Json) : Except String Json := do
  let tab_id ← parseU256Field args "tab_id"
  let req_id ← parseU256Field args "req_id"
  let amount ← parseU256Field args "amount"
  let recipient := (args.index "recipient").as_str.getD ""
  match client.user.pay_tab tab_id req_id amount recipient with
  | Except.ok receipt =>
      Except.ok (Json.obj
        [("transaction_hash", Json.str receipt.transaction_hash),
         ("block_number", Json.num receipt.block_number),
         ("gas_used", Json.num receipt.gas_used)])
  | Except.error e => Except.error ("Pay tab failed: " ++ e)

/-- Handler `get_tab_payment_status`. -/
def get_tab_payment_status (client : Client) (args : Json) : Except String Json := do
  let tab_id ← parseU256Field args "tab_id"
  match client.recipient.get_tab_payment_status tab_id with
  | Except.ok status =>
      Except.ok (Json.obj
        [("paid", Json.str (toString status.paid)),
         ("remunerated", Json.str (toString status.remunerated))])
  | Except.error e => Except.error ("Get tab payment status failed: " ++ e)

/-- Response handling of `remunerate`: wrap the receipt of the hard-coded
`pay_tab` call (`gas_used` stringified, unlike `deposit`/`pay_tab`). -/
def handleRemunerate (r : Except String TransactionReceipt) : Except String Json :=
  match r with
  | Except.ok receipt =>
      Except.ok (Json.obj
        [("transaction_hash", Json.str receipt.transaction_hash),
         ("block_number", Json.num receipt.block_number),
         ("gas_used", Json.str (toString receipt.gas_used))])
  | Except.error e => Except.error ("Pay tab failed: " ++ e)

/-- Handler `remunerate`: ignores `args` and settles the hard-coded tab via
the generic `pay_tab` remote call. -/
def remunerate (client : Client) (args : Json) : Except String Json := do
  let tab_id ← U256.fromStr "1"
  let req_id ← U256.fromStr "1"
  let amount ← U256.fromStr "1000000000000000"
  let recipient := "0x292F0E22A0245387a89d5DB50F016d18D6aF0bac"
  handleRemunerate (client.user.pay_tab tab_id req_id amount recipient)

/-- Success payload of `verify_bls_signature`, echoing the claims. -/
def blsSuccessJson (claims : PaymentGuaranteeClaims) : Json :=
  Json.obj
    [("verified", Json.bool true),
     ("message", Json.str "BLS signature is valid"),
     ("claims", Json.obj
       [("user_address", Json.str claims.user_address),
        ("recipient_address", Json.str claims.recipient_address),
        ("tab_id", Json.str (toString claims.tab_id)),
        ("req_id", Json.str (toString claims.req_id)),
        ("amount", Json.str (toString claims.amount)),
        ("timestamp", Json.num claims.timestamp)])]

/-- Handler `verify_bls_signature`: no cryptography, a presence check on the
certificate and public-key strings after reconstructing the claims. -/
def verify_bls_signature (client : Client) (args : Json) : Except String Json := do
  let certificate := (args.index "certificate").as_str.getD ""
  let public_key := (args.index "public_key").as_str.getD ""
  let claims ← verifyBlsClaims args
  let verification_result := !certificate.isEmpty && !public_key.isEmpty
  if verification_result then
    Except.ok (blsSuccessJson claims)
  else
    Except.error "BLS signature verification failed"

/-- The ten command names of the dispatcher. -/
def commandNames : List String :=
  ["test_connection", "deposit", "get_user", "create_tab", "sign_payment",
   "issue_payment_guarantee", "pay_tab", "get_tab_payment_status",
   "remunerate", "verify_bls_signature"]

/-- Command dispatch of `main`: exact string match selecting one handler,
`none` for an unrecognized command. -/
def dispatch (client : Client) (command : String) (args : Json) : Option (Except String Json) :=
  match command with
  | "test_connection" => some test_connection
  | "deposit" => some (deposit client args)
  | "get_user" => some (get_user client)
  | "create_tab" => some (create_tab client args)
  | "sign_payment" => some (sign_payment client args)
  | "issue_payment_guarantee" => some (issue_payment_guarantee client args)
  | "pay_tab" => some (pay_tab client args)
  | "get_tab_payment_status" => some (get_tab_payment_status client args)
  | "remunerate" => some (remunerate client args)
  | "verify_bls_signature" => some (verify_bls_signature client args)
  | _ => none

/-- The result envelope `Output`: `data` is flattened into the top level on
serialization. -/
structure Output where
  success : Bool
  error : Option String
  data : Json
deriving Repr

/-- The output `main` writes, from the point where the command envelope has
been decoded: client construction may fail (short-circuits to a failure
envelope), an unknown command yields a failure envelope, and a handler's
result is wrapped into a success or failure envelope. -/
def mainOutput (clientResult : Except String Client) (command : String) (args : Json) : Output :=
  match clientResult with
  | Except.error e =>
      { success := false, error := some ("Failed to create client: " ++ e), data := Json.null }
  | Except.ok client =>
      match dispatch client command args with
      | none =>
          { success := false, error := some ("Unknown command: " ++ command), data := Json.null }
      | some (Except.ok data) => { success := true, error := none, data := data }
      | some (Except.error e) => { success := false, error := some e, data := Json.null }

/-- Modelled from the spec: serde serialization of `Output` (the derive is
external library behavior).  `success` and `error` are emitted as fields
(`error: None` as JSON null), and the `data` object's fields are merged at
the top level by `#[serde(flatten)]`; a `Null` data contributes nothing. -/
def Output.toJson (o : Output) : Json :=
  Json.obj
    ([("success", Json.bool o.success),
      ("error", match o.error with
        | some e => Json.str e
        | none => Json.null)] ++
     (match o.data with
      | Json.obj fields => fields
      | _ => []))

/-- Modelled from the spec: serde deserialization of `Output`.  The named
fields `success` and `error` are consumed; every remaining top-level field is
collected into the flattened `data` object. -/
def Output.fromJson (j : Json) : Except String Output :=
  match j with
  | Json.obj fields =>
      match lookupField fields "success" with
      | some (Json.bool b) =>
          let rest := fields.filter (fun kv => !(kv.1 == "success") && !(kv.1 == "error"))
          match lookupField fields "error" with
          | some (Json.str e) => Except.ok { success := b, error := some e, data := Json.obj rest }
          | some Json.null => Except.ok { success := b, error := none, data := Json.obj rest }
          | none => Except.ok { success := b, error := none, data := Json.obj rest }
          | some _ => Except.error "invalid type: expected a string or null for error"
      | _ => Except.error "missing field success"
  | _ => Except.error "invalid type: expected an object"

/-- A concrete client used to instantiate theorems on explicit inputs. -/
def stubReceipt : TransactionReceipt :=
  { transaction_hash := "0xabc", block_number := 7, gas_used := 21000 }

/-- A concrete client whose every remote call succeeds with fixed values. -/
def stubClient : Client :=
  { user :=
      { deposit := fun _ => Except.ok stubReceipt
        get_user := Except.ok { collateral := 100, withdrawal_request_amount := 0, withdrawal_request_timestamp := 0 }
        sign_payment := fun _ _ => Except.ok { signature := "0xsig", scheme := SigningScheme.Eip712 }
        pay_tab := fun _ _ _ _ => Except.ok stubReceipt }
    recipient :=
      { create_tab := fun _ _ _ => Except.ok 1
        issue_payment_guarantee := fun _ _ _ => Except.ok "BLSCert"
        get_tab_payment_status := fun _ => Except.ok { paid := 0, remunerated := 0 } } }

/-- Non-string JSON values have no string view. -/
lemma Json.as_str_eq_none_of_not_str (w : Json) (hw : ∀ s, w ≠ Json.str s) :
    w.as_str = none := by
  cases w <;> first | rfl | exact absurd rfl (hw _)

/-- An unrecognized command string falls through every arm of the dispatch. -/
lemma dispatch_eq_none_of_not_mem (client : Client) (command : String) (args : Json)
    (h : command ∉ commandNames) : dispatch client command args = none := by
  unfold dispatch
  split <;> simp_all [commandNames]

/-- C1: `remunerate` submits a `pay_tab` call with exactly tab_id = 1,
req_id = 1, amount = 1000000000000000,
recipient = "0x292F0E22A0245387a89d5DB50F016d18D6aF0bac": its result is the
wrapped response of the client's `pay_tab` at precisely those arguments, and
it is independent of the input `args` (and of the client's behavior anywhere
else). -/
theorem remunerate_fixed (c c' : Client) (args args' : Json)
    (h : c.user.pay_tab 1 1 1000000000000000 "0x292F0E22A0245387a89d5DB50F016d18D6aF0bac" =
         c'.user.pay_tab 1 1 1000000000000000 "0x292F0E22A0245387a89d5DB50F016d18D6aF0bac") :
    remunerate c args =
      handleRemunerate (c.user.pay_tab 1 1 1000000000000000
        "0x292F0E22A0245387a89d5DB50F016d18D6aF0bac") ∧
    remunerate c args = remunerate c' args' := by
  constructor
  · rfl
  · rw [show remunerate c args =
          handleRemunerate (c.user.pay_tab 1 1 1000000000000000
            "0x292F0E22A0245387a89d5DB50F016d18D6aF0bac") from rfl,
        show remunerate c' args' =
          handleRemunerate (c'.user.pay_tab 1 1 1000000000000000
            "0x292F0E22A0245387a89d5DB50F016d18D6aF0bac") from rfl,
        h]

/-- Witness for C1 at concrete inputs: the output does not change when the
arguments change. -/
theorem remunerate_fixed_witness :
    remunerate stubClient Json.null =
      remunerate stubClient (Json.obj [("tab_id", Json.str "42"), ("amount", Json.str "5")]) :=
  (remunerate_fixed stubClient stubClient Json.null
    (Json.obj [("tab_id", Json.str "42"), ("amount", Json.str "5")]) rfl).2

/-- C2: the claim extractions inlined in `sign_payment`,
`issue_payment_guarantee` and `verify_bls_signature` agree on every input:
same `PaymentGuaranteeClaims` on success and the same failures. -/
theorem claims_extraction_agree (args : Json) :
    signPaymentClaims args = issuePaymentGuaranteeClaims args ∧
    issuePaymentGuaranteeClaims args = verifyBlsClaims args :=
  ⟨rfl, rfl⟩

/-- C3: an absent `amount` parses to 0 and `deposit` behaves as if the
literal "0" had been supplied; a present malformed string fails the command;
and the same absent-defaults, malformed-present-fails rule holds at every
`tab_id` / `req_id` / `amount` parse site (all of which go through
`parseU256Field`). -/
theorem deposit_parse_defaults (c : Client) (args : Json) :
    (args.index "amount" = Json.null →
        parseU256Field args "amount" = Except.ok 0 ∧
        deposit c args = deposit c (Json.obj [("amount", Json.str "0")])) ∧
    (deposit c (Json.obj [("amount", Json.str "abc")])).toOption = none ∧
    (∀ (v : Json) (f : String), (Json.index v f).as_str = none →
        parseU256Field v f = Except.ok 0) ∧
    (∀ (v : Json) (f s : String), v.index f = Json.str s → parseDecimal? s = none →
        (parseU256Field v f).toOption = none) ∧
    (pay_tab c (Json.obj [("tab_id", Json.str "abc")])).toOption = none ∧
    (signPaymentClaims (Json.obj [("claims", Json.obj [("req_id", Json.str "abc")])])).toOption =
      none := by
  refine ⟨?_, rfl, ?_, ?_, rfl, rfl⟩
  · intro h
    have hp : parseU256Field args "amount" = Except.ok 0 := by
      unfold parseU256Field
      rw [h]
      rfl
    refine ⟨hp, ?_⟩
    unfold deposit
    rw [hp, show parseU256Field (Json.obj [("amount", Json.str "0")]) "amount" = Except.ok 0
      from rfl]
  · intro v f h
    unfold parseU256Field
    rw [h]
    rfl
  · intro v f s h hs
    unfold parseU256Field
    rw [h]
    show (U256.fromStr s).toOption = none
    unfold U256.fromStr
    rw [hs]
    rfl

/-- Witness for C3 at concrete inputs: absent amount behaves as "0" and
parses to 0; a malformed present string fails. -/
theorem deposit_parse_defaults_witness :
    (deposit stubClient (Json.obj []) = deposit stubClient (Json.obj [("amount", Json.str "0")])) ∧
    parseU256Field (Json.obj []) "amount" = Except.ok 0 ∧
    (parseU256Field (Json.obj [("x", Json.str "abc")]) "x").toOption = none :=
  ⟨((deposit_parse_defaults stubClient (Json.obj [])).1 rfl).2,
   (deposit_parse_defaults stubClient (Json.obj [])).2.2.1 (Json.obj []) "amount" rfl,
   (deposit_parse_defaults stubClient (Json.obj [])).2.2.2.1
     (Json.obj [("x", Json.str "abc")]) "x" "abc" rfl rfl⟩

/-- C4: the resolved signing scheme is Eip191 exactly when `args.scheme` is
the JSON string "Eip191"; any other value of the field (a different string,
a non-string, or absence) resolves to Eip712.  Resolution is a total
function, so it never fails. -/
theorem scheme_resolution (args : Json) :
    (resolveScheme args = SigningScheme.Eip191 ↔ args.index "scheme" = Json.str "Eip191") ∧
    (args.index "scheme" ≠ Json.str "Eip191" → resolveScheme args = SigningScheme.Eip712) := by
  cases hj : args.index "scheme" with
  | str s =>
      have hr : resolveScheme args =
          (if s = "Eip712" then SigningScheme.Eip712
           else if s = "Eip191" then SigningScheme.Eip191
           else SigningScheme.Eip712) := by
        unfold resolveScheme
        rw [hj]
        show (match s with
              | "Eip712" => SigningScheme.Eip712
              | "Eip191" => SigningScheme.Eip191
              | _ => SigningScheme.Eip712) = _
        split <;> simp_all
      by_cases h1 : s = "Eip712" <;> by_cases h2 : s = "Eip191" <;>
        simp_all [hr, hj]
  | _ => simp_all [resolveScheme, Json.as_str, hj]

/-- Witness for C4 at concrete inputs: "Eip191" resolves to Eip191, "bogus"
and absence resolve to Eip712. -/
theorem scheme_resolution_witness :
    resolveScheme (Json.obj [("scheme", Json.str "Eip191")]) = SigningScheme.Eip191 ∧
    resolveScheme (Json.obj [("scheme", Json.str "bogus")]) = SigningScheme.Eip712 ∧
    resolveScheme (Json.obj []) = SigningScheme.Eip712 :=
  ⟨(scheme_resolution (Json.obj [("scheme", Json.str "Eip191")])).1.mpr rfl,
   (scheme_resolution (Json.obj [("scheme", Json.str "bogus")])).2
     (by intro h; injection h with h1; exact absurd h1 (by decide)),
   (scheme_resolution (Json.obj [])).2 (by intro h; exact Json.noConfusion h)⟩

/-- Arguments falsifying C5 as stated: certificate and public key both
non-empty, but a malformed claims field. -/
def blsBadArgs : Json :=
  Json.obj [("certificate", Json.str "cert"), ("public_key", Json.str "pk"),
            ("claims", Json.obj [("tab_id", Json.str "abc")])]

/-- C5 counterexample: with a non-empty certificate and a non-empty public
key but a malformed `claims.tab_id`, `verify_bls_signature` does not return
a `verified:true` success payload — it fails with the claim-parse error,
which is also not the "BLS signature verification failed" error the claim
prescribes for its only failure case. -/
theorem verify_bls_cex :
    (blsBadArgs.index "certificate").as_str.getD "" = "cert" ∧
    (blsBadArgs.index "public_key").as_str.getD "" = "pk" ∧
    verify_bls_signature stubClient blsBadArgs = Except.error "invalid digit found in string" ∧
    ("invalid digit found in string" : String) ≠ "BLS signature verification failed" :=
  ⟨rfl, rfl, rfl, by decide⟩

/-- C5 amended: provided the claims fields parse successfully,
`verify_bls_signature` performs no cryptographic verification: it returns the
`verified:true` payload echoing the claims exactly when both
`args.certificate` and `args.public_key` are non-empty strings, and returns
the error "BLS signature verification failed" when either is empty or
absent. -/
theorem verify_bls_presence_check (c : Client) (args : Json) (cl : PaymentGuaranteeClaims)
    (h : verifyBlsClaims args = Except.ok cl) :
    (((args.index "certificate").as_str.getD "" ≠ "" ∧
      (args.index "public_key").as_str.getD "" ≠ "") →
        verify_bls_signature c args = Except.ok (blsSuccessJson cl)) ∧
    (((args.index "certificate").as_str.getD "" = "" ∨
      (args.index "public_key").as_str.getD "" = "") →
        verify_bls_signature c args = Except.error "BLS signature verification failed") := by
  have hbody : verify_bls_signature c args =
      if (!((args.index "certificate").as_str.getD "").isEmpty &&
          !((args.index "public_key").as_str.getD "").isEmpty) = true
      then Except.ok (blsSuccessJson cl)
      else Except.error "BLS signature verification failed" := by
    unfold verify_bls_signature
    rw [h]
    rfl
  constructor
  · rintro ⟨h1, h2⟩
    have hcond : (!((args.index "certificate").as_str.getD "").isEmpty &&
        !((args.index "public_key").as_str.getD "").isEmpty) = true := by
      simp only [Bool.and_eq_true, Bool.not_eq_true', ← Bool.not_eq_true]
      constructor
      · intro hc
        exact h1 ((String.isEmpty_iff _).mp hc)
      · intro hc
        exact h2 ((String.isEmpty_iff _).mp hc)
    rw [hbody, if_pos hcond]
  · rintro (h1 | h1)
    · rw [hbody, if_neg]
      intro hc
      rw [Bool.and_eq_true, Bool.not_eq_true', Bool.not_eq_true'] at hc
      have hT := (String.isEmpty_iff ((args.index "certificate").as_str.getD "")).mpr h1
      rw [hc.1] at hT
      exact Bool.noConfusion hT
    · rw [hbody, if_neg]
      intro hc
      rw [Bool.and_eq_true, Bool.not_eq_true', Bool.not_eq_true'] at hc
      have hT := (String.isEmpty_iff ((args.index "public_key").as_str.getD "")).mpr h1
      rw [hc.2] at hT
      exact Bool.noConfusion hT

/-- Arguments with a non-empty certificate and public key and no claims
object (every claims field then takes its default). -/
def blsGoodArgs : Json :=
  Json.obj [("certificate", Json.str "cert"), ("public_key", Json.str "pk")]

/-- Witness for the amended C5 at a concrete input: both strings non-empty
and the claims parse (to the all-default claims), so the stubbed
verification succeeds. -/
theorem verify_bls_presence_check_witness :
    verify_bls_signature stubClient blsGoodArgs =
      Except.ok (blsSuccessJson
        { user_address := "", recipient_address := "", tab_id := 0, req_id := 0,
          amount := 0, timestamp := 0 }) :=
  (verify_bls_presence_check stubClient blsGoodArgs
      { user_address := "", recipient_address := "", tab_id := 0, req_id := 0,
        amount := 0, timestamp := 0 } rfl).1
    ⟨by decide, by decide⟩

/-- C6: every result envelope the program writes satisfies the invariant
that `error` is populated exactly when `success` is false, and the data
payload is non-null only when `success` is true. -/
theorem envelope_invariant (clientResult : Except String Client) (command : String) (args : Json) :
    ((mainOutput clientResult command args).error.isSome ↔
      (mainOutput clientResult command args).success = false) ∧
    ((mainOutput clientResult command args).success = false →
      (mainOutput clientResult command args).data = Json.null) := by
  unfold mainOutput
  cases clientResult with
  | error e => simp
  | ok client =>
      rcases hd : dispatch client command args with _ | (e | d) <;> simp [hd]

/-- C7: serializing a result envelope with `success = true` and
`data = {"x": 1}` flattens `x` to the top level (no "data" key), and
deserializing the result restores the envelope: `success : true`,
`error : null`, `x : 1` collected back into the flattened data. -/
theorem envelope_roundtrip :
    Output.toJson { success := true, error := none, data := Json.obj [("x", Json.num 1)] } =
      Json.obj [("success", Json.bool true), ("error", Json.null), ("x", Json.num 1)] ∧
    Output.fromJson
        (Output.toJson { success := true, error := none, data := Json.obj [("x", Json.num 1)] }) =
      Except.ok { success := true, error := none, data := Json.obj [("x", Json.num 1)] } :=
  ⟨rfl, rfl⟩

/-- C8: dispatch selects exactly one handler for each of the ten command
names (the names are pairwise distinct), and every string outside the ten
yields the failure envelope "Unknown command: name" (written as a normal
envelope, not a process failure). -/
theorem dispatch_contract (client : Client) (command : String) (args : Json) :
    (command ∉ commandNames →
      mainOutput (Except.ok client) command args =
        { success := false, error := some ("Unknown command: " ++ command), data := Json.null }) ∧
    dispatch client "test_connection" args = some test_connection ∧
    dispatch client "deposit" args = some (deposit client args) ∧
    dispatch client "get_user" args = some (get_user client) ∧
    dispatch client "create_tab" args = some (create_tab client args) ∧
    dispatch client "sign_payment" args = some (sign_payment client args) ∧
    dispatch client "issue_payment_guarantee" args = some (issue_payment_guarantee client args) ∧
    dispatch client "pay_tab" args = some (pay_tab client args) ∧
    dispatch client "get_tab_payment_status" args = some (get_tab_payment_status client args) ∧
    dispatch client "remunerate" args = some (remunerate client args) ∧
    dispatch client "verify_bls_signature" args = some (verify_bls_signature client args) ∧
    commandNames.Nodup := by
  refine ⟨?_, rfl, rfl, rfl, rfl, rfl, rfl, rfl, rfl, rfl, rfl, by decide⟩
  intro h
  rw [show mainOutput (Except.ok client) command args =
        (match dispatch client command args with
         | none =>
             { success := false, error := some ("Unknown command: " ++ command),
               data := Json.null }
         | some (Except.ok data) => { success := true, error := none, data := data }
         | some (Except.error e) => { success := false, error := some e, data := Json.null })
      from rfl,
      dispatch_eq_none_of_not_mem client command args h]

/-- Witness for C8 at a concrete unknown command. -/
theorem dispatch_contract_witness :
    mainOutput (Except.ok stubClient) "frobnicate" Json.null =
      { success := false, error := some ("Unknown command: " ++ "frobnicate"),
        data := Json.null } :=
  (dispatch_contract stubClient "frobnicate" Json.null).1 (by decide)

/-- C9: each of the four configuration keys falls back to its hard-coded
default when absent from the input config, and is used unchanged when it is
a present string. -/
theorem config_fallbacks (config : Json) :
    (config.index "rpc_url" = Json.null →
      (buildConfig config).rpc_url = "https://api.4mica.xyz") ∧
    (∀ s, config.index "rpc_url" = Json.str s → (buildConfig config).rpc_url = s) ∧
    (config.index "wallet_private_key" = Json.null →
      (buildConfig config).wallet_private_key =
        "0xac0974bec39a17e36ba4a6b4d238ff944bacb478cbed5efcae784d7bf4f2ff80") ∧
    (∀ s, config.index "wallet_private_key" = Json.str s →
      (buildConfig config).wallet_private_key = s) ∧
    (config.index "ethereum_http_rpc_url" = Json.null →
      (buildConfig config).ethereum_http_rpc_url = "https://ethereum-holesky.publicnode.com") ∧
    (∀ s, config.index "ethereum_http_rpc_url" = Json.str s →
      (buildConfig config).ethereum_http_rpc_url = s) ∧
    (config.index "contract_address" = Json.null →
      (buildConfig config).contract_address = "0x698B98d6574dE06dD39A49Cc4e37f3B06d454Eb9") ∧
    (∀ s, config.index "contract_address" = Json.str s →
      (buildConfig config).contract_address = s) := by
  refine ⟨?_, ?_, ?_, ?_, ?_, ?_, ?_, ?_⟩ <;>
    first
      | (intro h; simp [buildConfig, h, Json.as_str])
      | (intro s h; simp [buildConfig, h, Json.as_str])

/-- Witness for C9 at a concrete config: a present string is used unchanged
while an absent key falls back to its hard-coded default. -/
theorem config_fallbacks_witness :
    (buildConfig (Json.obj [("rpc_url", Json.str "http://localhost:8545")])).rpc_url =
      "http://localhost:8545" ∧
    (buildConfig (Json.obj [("rpc_url", Json.str "http://localhost:8545")])).wallet_private_key =
      "0xac0974bec39a17e36ba4a6b4d238ff944bacb478cbed5efcae784d7bf4f2ff80" :=
  ⟨(config_fallbacks (Json.obj [("rpc_url", Json.str "http://localhost:8545")])).2.1
      "http://localhost:8545" rfl,
   (config_fallbacks (Json.obj [("rpc_url", Json.str "http://localhost:8545")])).2.2.1 rfl⟩

/-- C10: a large-unsigned-integer field that is present but not a JSON
string is treated exactly as if absent: the literal "0" is parsed in its
place, yielding 0 with no failure; the handlers behave identically to the
absent-field case at the `amount`, claims and `pay_tab` parse sites. -/
theorem nonstring_uint_defaults (w : Json) (f : String) (hw : ∀ s, w ≠ Json.str s) :
    parseU256Field (Json.obj [(f, w)]) f = Except.ok 0 ∧
    (∀ c : Client, deposit c (Json.obj [("amount", w)]) = deposit c (Json.obj [])) ∧
    signPaymentClaims
        (Json.obj [("claims", Json.obj [("tab_id", w), ("req_id", w), ("amount", w)])]) =
      signPaymentClaims (Json.obj []) ∧
    (∀ c : Client,
      pay_tab c (Json.obj [("tab_id", w), ("req_id", w), ("amount", w)]) =
        pay_tab c (Json.obj [])) := by
  have hna : w.as_str = none := Json.as_str_eq_none_of_not_str w hw
  refine ⟨?_, ?_, ?_, ?_⟩
  · simp [parseU256Field, Json.index, lookupField, hna]
    rfl
  · intro c
    simp [deposit, parseU256Field, Json.index, lookupField, hna] <;> rfl
  · simp [signPaymentClaims, Json.index, lookupField, hna] <;> rfl
  · intro c
    simp [pay_tab, parseU256Field, Json.index, lookupField, hna] <;> rfl

/-- Witness for C10 at a concrete non-string field value (a JSON number). -/
theorem nonstring_uint_defaults_witness :
    parseU256Field (Json.obj [("amount", Json.num 5)]) "amount" = Except.ok 0 ∧
    deposit stubClient (Json.obj [("amount", Json.num 5)]) = deposit stubClient (Json.obj []) :=
  ⟨(nonstring_uint_defaults (Json.num 5) "amount" (fun s h => Json.noConfusion h)).1,
   (nonstring_uint_defaults (Json.num 5) "amount" (fun s h => Json.noConfusion h)).2.1
     stubClient⟩
